import Mathlib

/-!
Verification of the ride-hailing platform core services.

The TypeScript services are shallowly embedded in Lean: numbers that the
source manipulates as JS floats are modelled as rationals, JS
`Math.round` becomes `jsRound`, stateful Prisma/Redis operations become
explicit state passing over a `Db` record, and thrown errors become
`Except` values.  Each definition follows the corresponding source
function statement by statement.
-/

namespace RideHailing

/-- JavaScript `Math.round`: rounds half toward positive infinity,
so `Math.round x = ⌊x + 1/2⌋`. -/
def jsRound (x : ℚ) : ℤ := ⌊x + 1/2⌋

/-- Rounding of a monetary amount to two decimals exactly the way the
source writes it: `Math.round (x * 100) / 100`. -/
def round2 (x : ℚ) : ℚ := (jsRound (x * 100) : ℚ) / 100

/-- Banker's rounding (round half to even) of a rational to an integer. -/
def bankersRound (x : ℚ) : ℤ :=
  if x - ⌊x⌋ < 1/2 then ⌊x⌋
  else if 1/2 < x - ⌊x⌋ then ⌊x⌋ + 1
  else if 2 ∣ ⌊x⌋ then ⌊x⌋ else ⌊x⌋ + 1

/-- Banker's rounding to two decimal places, as the spec words it. -/
def bankersRound2 (x : ℚ) : ℚ := (bankersRound (x * 100) : ℚ) / 100

/-- Fare components returned by `calculateFare`
(`src/services/tripService.ts`, interface `FareCalculation`). -/
structure FareCalculation where
  baseFare : ℚ
  distanceFare : ℚ
  timeFare : ℚ
  surgeAmount : ℚ
  totalFare : ℚ
  discount : ℚ
  finalFare : ℚ
  platformFee : ℚ
  driverEarnings : ℚ
deriving DecidableEq, Repr

/-- Embedding of `calculateFare` from `src/services/tripService.ts`
(lines 21 to 49), statement by statement. -/
def calculateFare (distance duration baseFare perKmRate perMinRate
    surgeMultiplier discount : ℚ) : FareCalculation :=
  let distanceFare := distance * perKmRate
  let timeFare := (duration / 60) * perMinRate
  let surgeAmount := (baseFare + distanceFare + timeFare) * (surgeMultiplier - 1)
  let totalFare := baseFare + distanceFare + timeFare + surgeAmount
  let finalFare := max 0 (totalFare - discount)
  let platformFee := finalFare * (2/10)
  let driverEarnings := finalFare - platformFee
  { baseFare := round2 baseFare
    distanceFare := round2 distanceFare
    timeFare := round2 timeFare
    surgeAmount := round2 surgeAmount
    totalFare := round2 totalFare
    discount := round2 discount
    finalFare := round2 finalFare
    platformFee := round2 platformFee
    driverEarnings := round2 driverEarnings }

/-- The fare formulas exactly as the specification states them, with each
monetary output rounded half up (JS `Math.round`).  This is the spec-side
description that the amended claim compares `calculateFare` against. -/
def fareSpecHalfUp (distance duration baseFare perKmRate perMinRate
    surgeMultiplier discount : ℚ) : FareCalculation :=
  let distanceFare := distance * perKmRate
  let timeFare := (duration / 60) * perMinRate
  let subtotal := baseFare + distanceFare + timeFare
  let surgeAmount := subtotal * (surgeMultiplier - 1)
  let totalFare := subtotal + surgeAmount
  let finalFare := max 0 (totalFare - discount)
  let platformFee := finalFare * (2/10)
  let driverEarnings := finalFare - platformFee
  { baseFare := round2 baseFare
    distanceFare := round2 distanceFare
    timeFare := round2 timeFare
    surgeAmount := round2 surgeAmount
    totalFare := round2 totalFare
    discount := round2 discount
    finalFare := round2 finalFare
    platformFee := round2 platformFee
    driverEarnings := round2 driverEarnings }

/-- The fare formulas as the claim words them, with banker's rounding of
every monetary output.  Used only to compare against `calculateFare`. -/
def fareSpecBankers (distance duration baseFare perKmRate perMinRate
    surgeMultiplier discount : ℚ) : FareCalculation :=
  let distanceFare := distance * perKmRate
  let timeFare := (duration / 60) * perMinRate
  let subtotal := baseFare + distanceFare + timeFare
  let surgeAmount := subtotal * (surgeMultiplier - 1)
  let totalFare := subtotal + surgeAmount
  let finalFare := max 0 (totalFare - discount)
  let platformFee := finalFare * (2/10)
  let driverEarnings := finalFare - platformFee
  { baseFare := bankersRound2 baseFare
    distanceFare := bankersRound2 distanceFare
    timeFare := bankersRound2 timeFare
    surgeAmount := bankersRound2 surgeAmount
    totalFare := bankersRound2 totalFare
    discount := bankersRound2 discount
    finalFare := bankersRound2 finalFare
    platformFee := bankersRound2 platformFee
    driverEarnings := bankersRound2 driverEarnings }

/-! ## Data model

Embeddings of the enums of `src/core/Types.ts` and of the persisted rows
the services read and write.  JS `number` fields become `ℚ`, nullable
columns become `Option`, timestamps become `Nat`. -/

inductive RideStatus
  | SEARCHING | MATCHED | DRIVER_ARRIVING | ARRIVED
  | IN_PROGRESS | COMPLETED | CANCELLED | FAILED
deriving DecidableEq, Repr

inductive RideType
  | ECONOMY | STANDARD | PREMIUM | XL | LUXURY
deriving DecidableEq, Repr

inductive DriverStatus
  | OFFLINE | AVAILABLE | ON_RIDE | BREAK
deriving DecidableEq, Repr

inductive TripStatus
  | PENDING | STARTED | COMPLETED | CANCELLED
deriving DecidableEq, Repr

inductive PaymentStatus
  | PENDING | PROCESSING | COMPLETED | FAILED | REFUNDED
deriving DecidableEq, Repr

inductive VehicleType
  | SEDAN | SUV | HATCHBACK | LUXURY | AUTO
deriving DecidableEq, Repr

/-- Error kinds carried by the error classes thrown or returned by the
services (`NotFoundError`, `ValidationError`, `ConflictError`,
`BadRequestError`, `UnprocessableEntityError`). -/
inductive ErrKind
  | notFound | validation | conflict | badRequest | unprocessable
deriving DecidableEq, Repr

structure Err where
  kind : ErrKind
  msg : String
deriving DecidableEq, Repr

structure Location where
  lat : ℚ
  lng : ℚ
deriving DecidableEq, Repr

structure Ride where
  id : String
  riderId : String
  driverId : Option String
  pickup : Location
  dropoff : Location
  rideType : RideType
  status : RideStatus
  estimatedFare : Option ℚ
  surgeMultiplier : ℚ
  matchedAt : Option Nat
  searchAttempts : Nat
  idempotencyKey : Option String
deriving DecidableEq, Repr

structure Driver where
  id : String
  name : String
  status : DriverStatus
  currentLat : Option ℚ
  currentLng : Option ℚ
  vehicleType : VehicleType
  rating : ℚ
  totalTrips : Nat
deriving DecidableEq, Repr

structure Trip where
  id : String
  rideId : String
  driverId : String
  status : TripStatus
  startOtp : Option String
  startTime : Option Nat
  endTime : Option Nat
  baseFare : ℚ
  perKmRate : ℚ
  perMinRate : ℚ
  discount : ℚ
  actualDistance : Option ℚ
  distanceFare : ℚ
  timeFare : ℚ
  surgeAmount : ℚ
  totalFare : ℚ
  finalFare : ℚ
  platformFee : ℚ
  driverEarnings : ℚ
deriving DecidableEq, Repr

structure Payment where
  id : Nat
  tripId : String
  paymentMethodId : Option String
  amount : ℚ
  status : PaymentStatus
  idempotencyKey : String
  attempts : Nat
  maxAttempts : Nat
  pspTransactionId : Option String
  completedAt : Option Nat
  failedAt : Option Nat
  failureReason : Option String
  createdAt : Nat
deriving DecidableEq, Repr

structure Notification where
  riderId : Option String
  driverId : Option String
  ntype : String
  title : String
  message : String
  rideId : Option String
  cancellationFee : Option ℚ
deriving DecidableEq, Repr

/-- Ride event row; `cancellationFee` mirrors the `cancellationFee` field
the source puts in the `ride_cancelled` event payload (none elsewhere). -/
structure RideEvent where
  rideId : String
  eventType : String
  cancellationFee : Option ℚ
deriving DecidableEq, Repr

/-- An entry of the Redis geo index `drivers:available` together with the
driver metadata hash written by `addAvailableDriver`. -/
structure GeoEntry where
  driverId : String
  lat : ℚ
  lng : ℚ
  vehicleType : Option VehicleType
  rating : Option ℚ
deriving DecidableEq, Repr

structure SurgeZone where
  isActive : Bool
  currentSurge : ℚ
deriving DecidableEq, Repr

structure PricingConfig where
  rideType : RideType
  region : String
  isActive : Bool
  baseFare : ℚ
  perKmRate : ℚ
  perMinRate : ℚ
deriving DecidableEq, Repr

structure PaymentResponse where
  id : Nat
  tripId : String
  amount : ℚ
  status : PaymentStatus
  pspTransactionId : Option String
  createdAt : Nat
  completedAt : Option Nat
deriving DecidableEq, Repr

/-- The whole mutable state the services touch: the relational store, the
Redis geo index, the idempotency store and the list of PSP charges that
have been issued (used to phrase the claim that nothing is charged
twice). -/
structure Db where
  riders : List String
  drivers : List Driver
  rides : List Ride
  trips : List Trip
  payments : List Payment
  pricingConfigs : List PricingConfig
  surgeZones : List SurgeZone
  notifications : List Notification
  rideEvents : List RideEvent
  geoIndex : List GeoEntry
  idemKeys : List String
  idemResponses : List (String × Nat × PaymentResponse)
  charges : List ℚ
  activeRides : List String
  nextId : Nat
deriving DecidableEq, Repr

/-- An empty database, used as a base state for concrete scenarios. -/
def emptyDb : Db :=
  { riders := [], drivers := [], rides := [], trips := [], payments := [],
    pricingConfigs := [], surgeZones := [], notifications := [], rideEvents := [],
    geoIndex := [], idemKeys := [], idemResponses := [], charges := [],
    activeRides := [], nextId := 0 }

structure CreateRideRequest where
  riderId : String
  pickup : Location
  dropoff : Location
  rideType : RideType
  idempotencyKey : Option String
deriving DecidableEq, Repr

/-- Embedding of `validateRideRequest` (ride service, lines 77 to 111).
The source tests presence of each coordinate by JS truthiness
(`!request.pickup.lat`), so a numeric coordinate equal to 0 is treated
as missing; the typed `rideType` enum check of the source is always
true here.  The string `riderId` is falsy exactly when empty. -/
def validateRideRequest (request : CreateRideRequest) : Option Err :=
  if request.riderId = "" then
    some ⟨.validation, "Rider ID is required"⟩
  else if request.pickup.lat = 0 ∨ request.pickup.lng = 0 then
    some ⟨.validation, "Valid pickup location is required"⟩
  else if request.dropoff.lat = 0 ∨ request.dropoff.lng = 0 then
    some ⟨.validation, "Valid dropoff location is required"⟩
  else if request.pickup.lat < -90 ∨ 90 < request.pickup.lat then
    some ⟨.validation, "Invalid pickup latitude"⟩
  else if request.pickup.lng < -180 ∨ 180 < request.pickup.lng then
    some ⟨.validation, "Invalid pickup longitude"⟩
  else if request.dropoff.lat < -90 ∨ 90 < request.dropoff.lat then
    some ⟨.validation, "Invalid dropoff latitude"⟩
  else if request.dropoff.lng < -180 ∨ 180 < request.dropoff.lng then
    some ⟨.validation, "Invalid dropoff longitude"⟩
  else
    none

/-- Embedding of `getSurgeMultiplier`: `findFirst` on active surge zones;
`surgeZone?.currentSurge || 1.0` makes a zero multiplier fall back to 1. -/
def getSurgeMultiplier (db : Db) : ℚ :=
  match db.surgeZones.find? (fun z => z.isActive) with
  | none => 1
  | some z => if z.currentSurge = 0 then 1 else z.currentSurge

/-- Embedding of `getPricingConfig`: first active row for the tier and
region. -/
def getPricingConfig (db : Db) (rideType : RideType) (region : String) :
    Option PricingConfig :=
  db.pricingConfigs.find?
    (fun c => decide (c.rideType = rideType ∧ c.region = region ∧ c.isActive))

/-- Embedding of `calculateEstimatedFare` (ride service, lines 33 to 45). -/
def calculateEstimatedFare (distance duration baseFare perKmRate perMinRate
    surgeMultiplier : ℚ) : ℚ :=
  let distanceFare := distance * perKmRate
  let timeFare := (duration / 60) * perMinRate
  let subtotal := baseFare + distanceFare + timeFare
  round2 (subtotal * surgeMultiplier)

/-- Embedding of `estimateDuration`: `Math.round ((distanceKm / 30) * 3600)`
seconds at 30 km/h. -/
def estimateDuration (distanceKm : ℚ) : ℚ :=
  ((jsRound (distanceKm / 30 * 3600) : ℤ) : ℚ)

/-- Embedding of `createRide` (ride service, lines 248 to 350).  The
haversine distance runs on real-valued trigonometry, so it enters the
model as the function parameter `hav`; every control-flow step of the
source is kept: validation, idempotent replay, rider lookup, pricing
lookup, estimation, row insert, `ride_created` event and active-ride
tracking.  The detached background matching task is modelled separately
(`findAndMatchAttempt`). -/
def createRide (hav : Location → Location → ℚ) (request : CreateRideRequest)
    (db : Db) : Except Err Ride × Db :=
  match validateRideRequest request with
  | some e => (.error e, db)
  | none =>
    let idemHit : Option Ride :=
      match request.idempotencyKey with
      | some k =>
        if k = "" then none
        else db.rides.find? (fun r => r.idempotencyKey == some k)
      | none => none
    match idemHit with
    | some existing => (.ok existing, db)
    | none =>
      if db.riders.contains request.riderId then
        match getPricingConfig db request.rideType "Mumbai" with
        | none => (.error ⟨.notFound, "Pricing configuration not found"⟩, db)
        | some pc =>
          let distance := hav request.pickup request.dropoff
          let duration := estimateDuration distance
          let surge := getSurgeMultiplier db
          let estimatedFare :=
            calculateEstimatedFare distance duration pc.baseFare pc.perKmRate
              pc.perMinRate surge
          let ride : Ride :=
            { id := "ride-" ++ toString db.nextId, riderId := request.riderId,
              driverId := none, pickup := request.pickup,
              dropoff := request.dropoff, rideType := request.rideType,
              status := .SEARCHING, estimatedFare := some estimatedFare,
              surgeMultiplier := surge, matchedAt := none, searchAttempts := 0,
              idempotencyKey := request.idempotencyKey }
          (.ok ride,
            { db with
              rides := db.rides ++ [ride],
              rideEvents := db.rideEvents ++ [⟨ride.id, "ride_created", none⟩],
              activeRides := db.activeRides ++ [ride.id],
              nextId := db.nextId + 1 })
      else
        (.error ⟨.notFound, "Rider not found"⟩, db)

/-- JS truthiness of a nullable numeric column: null and 0 are falsy. -/
def truthy : Option ℚ → Bool
  | none => false
  | some v => decide (v ≠ 0)

/-- Embedding of `addAvailableDriver` (`src/utils/redis.ts`, lines 101 to
139): `GEOADD` inserts or updates the member, and the metadata hash
stores the vehicle type and rating passed by the caller. -/
def addAvailableDriver (driverId : String) (lat lng : ℚ)
    (vt : Option VehicleType) (rating : Option ℚ) (db : Db) : Db :=
  { db with geoIndex := db.geoIndex.filter (fun g => g.driverId != driverId)
      ++ [⟨driverId, lat, lng, vt, rating⟩] }

/-- Embedding of `removeAvailableDriver`: `ZREM` plus metadata delete. -/
def removeAvailableDriver (driverId : String) (db : Db) : Db :=
  { db with geoIndex := db.geoIndex.filter (fun g => g.driverId != driverId) }

/-- Embedding of `updateDriverAvailability`
(`src/services/driverService.ts`, lines 175 to 205): fetch the driver,
persist the new status, then touch the geo index.  Only the branch with
a truthy `currentLat` and `currentLng` adds the driver; transitioning to
AVAILABLE with a falsy coordinate leaves the geo index untouched. -/
def updateDriverAvailability (driverId : String) (status : DriverStatus)
    (db : Db) : Except Err Driver × Db :=
  match db.drivers.find? (fun d => d.id == driverId) with
  | none => (.error ⟨.notFound, "Driver not found"⟩, db)
  | some driver =>
    let db1 := { db with drivers := (db.drivers.map
      (fun d => if d.id = driverId then { d with status := status } else d)) }
    let updated := { driver with status := status }
    if status = .AVAILABLE then
      if truthy driver.currentLat && truthy driver.currentLng then
        (.ok updated,
          addAvailableDriver driverId (driver.currentLat.getD 0)
            (driver.currentLng.getD 0) (some driver.vehicleType)
            (some driver.rating) db1)
      else
        (.ok updated, db1)
    else
      (.ok updated, removeAvailableDriver driverId db1)

structure StartTripRequest where
  tripId : String
  startOtp : String
deriving DecidableEq, Repr

/-- Embedding of `startTrip` (`src/services/tripService.ts`, lines 85 to
173).  The transaction fetches the trip (with its ride joined), rejects a
non-PENDING trip, rejects a falsy or mismatched OTP (`!trip.startOtp ||
!validateOtp(...)`, so a null or empty stored OTP always fails), and only
then mutates: trip STARTED with startTime, ride IN_PROGRESS, a rider
notification and a `trip_started` event.  Every rejection happens before
any write, so the state comes back unchanged. -/
def startTrip (request : StartTripRequest) (now : Nat) (db : Db) :
    Except Err Trip × Db :=
  match db.trips.find? (fun t => t.id == request.tripId) with
  | none => (.error ⟨.notFound, "Trip not found"⟩, db)
  | some trip =>
    if trip.status ≠ .PENDING then
      (.error ⟨.validation, "Trip already started or completed"⟩, db)
    else
      match trip.startOtp with
      | none => (.error ⟨.validation, "Invalid OTP"⟩, db)
      | some otp =>
        if otp = "" then (.error ⟨.validation, "Invalid OTP"⟩, db)
        else if request.startOtp = otp then
          match db.rides.find? (fun r => r.id == trip.rideId) with
          | none => (.error ⟨.unprocessable, "Trip ride missing"⟩, db)
          | some ride =>
            (.ok { trip with startTime := some now, status := .STARTED },
              { db with
                trips := (db.trips.map (fun t =>
                  if t.id = request.tripId then
                    { t with startTime := some now, status := .STARTED }
                  else t)),
                rides := (db.rides.map (fun r =>
                  if r.id = trip.rideId then { r with status := .IN_PROGRESS }
                  else r)),
                notifications := db.notifications ++
                  [⟨some ride.riderId, none, "TRIP_STARTED", "Trip Started",
                    "Your trip has started. Have a safe journey!",
                    some trip.rideId, none⟩],
                rideEvents := db.rideEvents ++ [⟨trip.rideId, "trip_started", none⟩] })
        else (.error ⟨.validation, "Invalid OTP"⟩, db)

structure CancelRideRequest where
  rideId : String
  cancelledBy : String
  reason : Option String
deriving DecidableEq, Repr

/-- The `findFirst` filter of `cancelRide`: the ride with the requested id
whose status is notIn [COMPLETED, CANCELLED].  IN_PROGRESS and FAILED are
not excluded by the source. -/
def cancellablePred (rideId : String) (r : Ride) : Bool :=
  decide (r.id = rideId ∧ r.status ≠ .COMPLETED ∧ r.status ≠ .CANCELLED)

/-- Embedding of `cancelRide` (ride service, lines 482 to 599): fetch a
non-COMPLETED, non-CANCELLED ride; compute a 10 percent cancellation fee
(`Math.round`, integer rupees) when the status is MATCHED,
DRIVER_ARRIVING or ARRIVED; set the ride CANCELLED; free an assigned
driver (status AVAILABLE) and notify them; notify the rider (carrying the
fee when positive); cancel an existing trip row; append the
`ride_cancelled` event carrying the fee; drop the ride from the active
set. -/
def cancelRide (request : CancelRideRequest) (db : Db) : Except Err Ride × Db :=
  match db.rides.find? (cancellablePred request.rideId) with
  | none => (.error ⟨.notFound, "Ride not found or cannot be cancelled"⟩, db)
  | some ride =>
    let cancellationFee : ℚ :=
      if ride.status = .MATCHED ∨ ride.status = .DRIVER_ARRIVING ∨
          ride.status = .ARRIVED then
        ((jsRound ((ride.estimatedFare.getD 0) * (1/10)) : ℤ) : ℚ)
      else 0
    let db1 : Db := { db with rides := (db.rides.map (fun r =>
      if r.id = request.rideId then { r with status := .CANCELLED } else r)) }
    let db2 : Db :=
      match ride.driverId with
      | some dId =>
        { db1 with
          drivers := (db1.drivers.map (fun d =>
            if d.id = dId then { d with status := .AVAILABLE } else d)),
          notifications := db1.notifications ++
            [⟨none, some dId, "RIDE_CANCELLED", "Ride Cancelled",
              "Ride cancelled by " ++ request.cancelledBy, some ride.id, none⟩] }
      | none => db1
    let db3 : Db := { db2 with notifications := db2.notifications ++
      [⟨some ride.riderId, none, "RIDE_CANCELLED", "Ride Cancelled",
        request.reason.getD "Ride has been cancelled", some ride.id,
        if cancellationFee > 0 then some cancellationFee else none⟩] }
    let db4 : Db :=
      match db3.trips.find? (fun t => t.rideId == ride.id) with
      | some trip =>
        { db3 with trips := (db3.trips.map (fun t =>
          if t.id = trip.id then { t with status := .CANCELLED } else t)) }
      | none => db3
    (.ok { ride with status := .CANCELLED },
      { db4 with
        rideEvents := db4.rideEvents ++
          [⟨ride.id, "ride_cancelled", some cancellationFee⟩],
        activeRides := db4.activeRides.filter (fun i => i != ride.id) })

structure ProcessPaymentRequest where
  tripId : String
  paymentMethodId : String
  idempotencyKey : String
deriving DecidableEq, Repr

/-- Embedding of `checkIdempotency` (`src/utils/redis.ts`, lines 327 to
353): `SET key NX`, returning true exactly when the key was absent (first
request). -/
def checkIdempotency (key : String) (db : Db) : Bool × Db :=
  if key ∈ db.idemKeys then (false, db)
  else (true, { db with idemKeys := db.idemKeys ++ [key] })

/-- Embedding of `storeIdempotentResponse`: caches the response under
`key:response` with the given TTL in seconds. -/
def storeIdempotentResponse (key : String) (resp : PaymentResponse)
    (ttl : Nat) (db : Db) : Db :=
  { db with idemResponses := db.idemResponses ++ [(key ++ ":response", ttl, resp)] }

/-- Embedding of `getIdempotentResponse`: reads the cached response
stored under `key:response`. -/
def getIdempotentResponse (key : String) (db : Db) : Option PaymentResponse :=
  (db.idemResponses.find? (fun e => e.1 == key ++ ":response")).map (fun e => e.2.2)

/-- Projection of a payment row to the response body the service
returns. -/
def toPaymentResponse (p : Payment) : PaymentResponse :=
  ⟨p.id, p.tripId, p.amount, p.status, p.pspTransactionId, p.createdAt, p.completedAt⟩

/-- Embedding of `processPayment`
(`backend/src/services/paymentService.ts`, lines 17 to 133).  The PSP is
the oracle `psp`, indexed by the number of charges issued so far; a
successful charge yields a transaction reference, a failed one the mock
"Insufficient funds" reason.  Creating a second payment row for the same
trip would violate the unique index on `payments.tripId`, which aborts
the transaction. -/
def processPayment (request : ProcessPaymentRequest) (psp : Nat → Bool)
    (now : Nat) (db : Db) : Except Err PaymentResponse × Db :=
  let key := "payment:" ++ request.idempotencyKey
  let res := checkIdempotency key db
  let db0 := res.2
  let cached : Option PaymentResponse :=
    if res.1 then none else getIdempotentResponse key db0
  match cached with
  | some r => (.ok r, db0)
  | none =>
    match db0.trips.find? (fun t => t.id == request.tripId) with
    | none => (.error ⟨.notFound, "Trip not found"⟩, db0)
    | some trip =>
      if trip.status ≠ .COMPLETED then
        (.error ⟨.validation, "Trip not completed"⟩, db0)
      else
        match db0.payments.find? (fun p => p.tripId == request.tripId) with
        | some existing =>
          if existing.status = .COMPLETED then
            (.ok (toPaymentResponse existing), db0)
          else
            (.error ⟨.conflict, "Unique constraint failed on payments.tripId"⟩, db0)
        | none =>
          match db0.rides.find? (fun r => r.id == trip.rideId) with
          | none => (.error ⟨.unprocessable, "Trip ride missing"⟩, db0)
          | some ride =>
            let ok := psp db0.charges.length
            let updated : Payment :=
              { id := db0.nextId, tripId := request.tripId,
                paymentMethodId := some request.paymentMethodId,
                amount := trip.finalFare, status := if ok then .COMPLETED else .FAILED,
                idempotencyKey := request.idempotencyKey, attempts := 1,
                maxAttempts := 3,
                pspTransactionId :=
                  if ok then some ("txn-" ++ toString db0.charges.length) else none,
                completedAt := if ok then some now else none,
                failedAt := if ok then none else some now,
                failureReason := if ok then none else some "Insufficient funds",
                createdAt := now }
            let resp := toPaymentResponse updated
            let db1 : Db := { db0 with
              payments := db0.payments ++ [updated],
              charges := db0.charges ++ [trip.finalFare],
              notifications := db0.notifications ++
                [⟨some ride.riderId, none,
                  (if ok then "PAYMENT_SUCCESS" else "PAYMENT_FAILED"),
                  (if ok then "Payment Successful" else "Payment Failed"),
                  (if ok then "paid successfully" else "Payment failed. Please try again."),
                  some trip.rideId, none⟩],
              nextId := db0.nextId + 1 }
            (.ok resp, storeIdempotentResponse key resp 3600 db1)

/-- Embedding of `retryPayment`
(`backend/src/services/paymentService.ts`, lines 209 to 279): reject a
missing payment, a COMPLETED payment, or one whose attempts already
reached maxAttempts; otherwise increment attempts and charge the PSP
again, recording the outcome.  A failed charge leaves
`pspTransactionId` and `completedAt` untouched (Prisma skips undefined
fields). -/
def retryPayment (paymentId : Nat) (psp : Nat → Bool) (now : Nat)
    (db : Db) : Except Err PaymentResponse × Db :=
  match db.payments.find? (fun p => p.id == paymentId) with
  | none => (.error ⟨.notFound, "Payment not found"⟩, db)
  | some payment =>
    if payment.status = .COMPLETED then
      (.error ⟨.validation, "Payment already completed"⟩, db)
    else if payment.maxAttempts ≤ payment.attempts then
      (.error ⟨.validation, "Maximum retry attempts reached"⟩, db)
    else
      let ok := psp db.charges.length
      let updated : Payment := { payment with
        status := if ok then .COMPLETED else .FAILED,
        attempts := payment.attempts + 1,
        pspTransactionId :=
          if ok then some ("txn-" ++ toString db.charges.length)
          else payment.pspTransactionId,
        completedAt := if ok then some now else payment.completedAt,
        failedAt := if ok then payment.failedAt else some now,
        failureReason := if ok then payment.failureReason
          else some "Insufficient funds" }
      (.ok (toPaymentResponse updated),
        { db with
          payments := (db.payments.map (fun p =>
            if p.id = paymentId then updated else p)),
          charges := db.charges ++ [payment.amount] })

/-- Embedding of `acceptRide` (`src/services/driverService.ts`, lines 210
to 316).  `withLock` on `ride:<id>:matching` serializes concurrent
callers; the body is one transaction: re-check the ride is still
SEARCHING and the driver still AVAILABLE, then atomically assign the
driver, set MATCHED with matchedAt, mark the driver ON_RIDE, remove the
driver from the geo index, create the two notifications and the
`driver_matched` event.  A caller that fails the re-check gets a thrown
`BadRequestError` and the transaction leaves no trace. -/
def acceptRide (rideId driverId : String) (now : Nat) (db : Db) :
    Except Err (String × String) × Db :=
  match db.rides.find? (fun r => decide (r.id = rideId ∧ r.status = .SEARCHING)) with
  | none => (.error ⟨.badRequest, "Ride not found or not available for matching"⟩, db)
  | some ride =>
    match db.drivers.find? (fun d => decide (d.id = driverId ∧ d.status = .AVAILABLE)) with
    | none => (.error ⟨.badRequest, "Driver not found or not available"⟩, db)
    | some driver =>
      (.ok (ride.id, "Ride accepted successfully"),
        { db with
          rides := (db.rides.map (fun r => if r.id = rideId then
            { r with driverId := some driverId, status := RideStatus.MATCHED, matchedAt := some now }
            else r)),
          drivers := (db.drivers.map (fun d => if d.id = driverId then
            { d with status := .ON_RIDE } else d)),
          geoIndex := db.geoIndex.filter (fun g => g.driverId != driverId),
          notifications := db.notifications ++
            [⟨some ride.riderId, none, "RIDE_MATCHED", "Driver Found!",
              driver.name ++ " is on the way", some ride.id, none⟩,
             ⟨none, some driverId, "RIDE_REQUEST", "New Ride",
              "You have been matched with a rider", some ride.id, none⟩],
          rideEvents := db.rideEvents ++ [⟨ride.id, "driver_matched", none⟩] })

/-- Embedding of `matchRideWithDriver` (ride service, lines 642 to 753):
the same locked transaction as `acceptRide`, used by the background
matching loop, but the losers receive a returned `ConflictError` and the
geo index is not touched. -/
def matchRideWithDriver (rideId driverId : String) (now : Nat) (db : Db) :
    Except Err Ride × Db :=
  match db.rides.find? (fun r => decide (r.id = rideId ∧ r.status = .SEARCHING)) with
  | none => (.error ⟨.conflict, "Ride not available for matching"⟩, db)
  | some ride =>
    match db.drivers.find? (fun d => decide (d.id = driverId ∧ d.status = .AVAILABLE)) with
    | none => (.error ⟨.conflict, "Driver not available"⟩, db)
    | some driver =>
      (.ok { ride with driverId := some driverId, status := RideStatus.MATCHED, matchedAt := some now },
        { db with
          rides := (db.rides.map (fun r => if r.id = rideId then
            { r with driverId := some driverId, status := RideStatus.MATCHED, matchedAt := some now }
            else r)),
          drivers := (db.drivers.map (fun d => if d.id = driverId then
            { d with status := .ON_RIDE } else d)),
          notifications := db.notifications ++
            [⟨some ride.riderId, none, "RIDE_MATCHED", "Driver Found!",
              driver.name ++ " is on the way", some ride.id, none⟩,
             ⟨none, some driverId, "RIDE_REQUEST", "New Ride",
              "You have been matched with a rider", some ride.id, none⟩],
          rideEvents := db.rideEvents ++ [⟨ride.id, "driver_matched", none⟩] })

/-- Concurrent `acceptRide` callers for one ride: the lock serializes
them into some arrival order, so the concurrent execution is the
sequential composition of the atomic lock-protected bodies in that
order.  `runAccepts` folds the callers in arrival order, collecting each
caller's outcome. -/
def runAccepts (rideId : String) (now : Nat) :
    List String → Db → List (Except Err (String × String)) × Db
  | [], db => ([], db)
  | d :: ds, db =>
    let step := acceptRide rideId d now db
    let rest := runAccepts rideId now ds step.2
    (step.1 :: rest.1, rest.2)

/-- A candidate returned by the geo query `findNearbyDrivers`, with the
metadata fields the matching loop reads. -/
structure NearbyDriver where
  driverId : String
  distance : ℚ
  rating : ℚ
  vehicleType : Option VehicleType
deriving DecidableEq, Repr

/-- The comparator of `sortedDrivers` (ride service, lines 787 to 793):
when two distances differ by less than 0.5 km compare by descending
rating, otherwise by ascending distance.  There is no driverId
tiebreak. -/
def driverCompare (a b : NearbyDriver) : ℚ :=
  if |a.distance - b.distance| < 1/2 then b.rating - a.rating
  else a.distance - b.distance

/-- One insertion step of a stable sort by `driverCompare`: the new
element is placed before the first element it strictly precedes, so
elements the comparator calls equal keep their original relative order,
matching the stable JS `Array.prototype.sort`. -/
def insertDriver (a : NearbyDriver) : List NearbyDriver → List NearbyDriver
  | [] => [a]
  | b :: l => if driverCompare a b < 0 then a :: b :: l else b :: insertDriver a l

/-- Model of `nearbyDrivers.sort(comparator)`: a stable insertion sort by
`driverCompare`. -/
def sortDrivers (l : List NearbyDriver) : List NearbyDriver :=
  l.foldl (fun acc a => insertDriver a acc) []

/-- The per-candidate loop of `findAndMatchDriver` (ride service, lines
796 to 823): re-read the ride, return silently when it has left
SEARCHING, otherwise try `matchRideWithDriver` on each candidate in
order and stop on the first success. -/
def tryCandidates (rideId : String) (now : Nat) :
    List NearbyDriver → Db → Option String × Db
  | [], db => (none, db)
  | c :: cs, db =>
    match db.rides.find? (fun r => r.id == rideId) with
    | none => (none, db)
    | some cur =>
      if cur.status ≠ .SEARCHING then (none, db)
      else
        let step := matchRideWithDriver rideId c.driverId now db
        match step.1 with
        | .ok _ => (some c.driverId, step.2)
        | .error _ => tryCandidates rideId now cs step.2

/-- One attempt of the background matcher `findAndMatchDriver` (ride
service, lines 760 to 866) once the geo query has returned
`nearbyDrivers`: sort with the comparator, then try candidates in order.
The requested tier `rideType` is a parameter of the source function but
is never used to filter the candidate list. -/
def findAndMatchAttempt (rideId : String) (rideType : RideType) (now : Nat)
    (nearbyDrivers : List NearbyDriver) (db : Db) : Option String × Db :=
  tryCandidates rideId now (sortDrivers nearbyDrivers) db


/-! ## Concrete scenario states used by witnesses and counterexamples -/

/-- Ride-creation request whose pickup latitude is 0 (on the equator). -/
def zeroLatRequest : CreateRideRequest :=
  { riderId := "R1", pickup := ⟨0, 72⟩, dropoff := ⟨19, 72⟩,
    rideType := .STANDARD, idempotencyKey := none }

/-- An offline driver whose stored position has latitude exactly 0. -/
def geoDriver9 : Driver := ⟨"D1", "Dana", .OFFLINE, some 0, some 72, .SEDAN, 5, 0⟩

def geoDb9 : Db := { emptyDb with drivers := [geoDriver9] }

/-- An offline driver with an ordinary (truthy) stored position. -/
def availDriver9 : Driver := ⟨"D2", "Devi", .OFFLINE, some 19, some 72, .SEDAN, 5, 0⟩

def availDb9 : Db := { emptyDb with drivers := [availDriver9] }

/-- A PENDING trip holding OTP "1234", and its ARRIVED ride. -/
def otpTrip4 : Trip :=
  { id := "T1", rideId := "R1", driverId := "D1", status := .PENDING,
    startOtp := some "1234", startTime := none, endTime := none,
    baseFare := 50, perKmRate := 12, perMinRate := 2, discount := 0,
    actualDistance := none, distanceFare := 0, timeFare := 0,
    surgeAmount := 0, totalFare := 0, finalFare := 0, platformFee := 0,
    driverEarnings := 0 }

def otpRide4 : Ride :=
  { id := "R1", riderId := "RID1", driverId := some "D1", pickup := ⟨19, 72⟩,
    dropoff := ⟨20, 73⟩, rideType := .STANDARD, status := .ARRIVED,
    estimatedFare := some 100, surgeMultiplier := 1, matchedAt := some 1,
    searchAttempts := 0, idempotencyKey := none }

def otpDb4 : Db := { emptyDb with trips := [otpTrip4], rides := [otpRide4] }

/-- A ride in IN_PROGRESS with an assigned driver, for the C6 scenarios. -/
def cancelRide6 : Ride :=
  { id := "R6", riderId := "RID6", driverId := some "D6", pickup := ⟨19, 72⟩,
    dropoff := ⟨20, 73⟩, rideType := .STANDARD, status := .IN_PROGRESS,
    estimatedFare := some 100, surgeMultiplier := 1, matchedAt := some 1,
    searchAttempts := 0, idempotencyKey := none }

def cancelDriver6 : Driver := ⟨"D6", "Drew", .ON_RIDE, some 19, some 72, .SEDAN, 5, 0⟩

def cancelDb6 : Db := { emptyDb with rides := [cancelRide6], drivers := [cancelDriver6] }

/-- A MATCHED ride with estimated fare 100, for the C6 witness. -/
def cancelRide7 : Ride :=
  { id := "R7", riderId := "RID7", driverId := some "D7", pickup := ⟨19, 72⟩,
    dropoff := ⟨20, 73⟩, rideType := .STANDARD, status := .MATCHED,
    estimatedFare := some 100, surgeMultiplier := 1, matchedAt := some 1,
    searchAttempts := 0, idempotencyKey := none }

def cancelDriver7 : Driver := ⟨"D7", "Dale", .ON_RIDE, some 19, some 72, .SEDAN, 5, 0⟩

def cancelDb7 : Db := { emptyDb with rides := [cancelRide7], drivers := [cancelDriver7] }

/-- Payments used by the C8 scenarios. -/
def pendingPayment8 : Payment :=
  { id := 1, tripId := "T1", paymentMethodId := some "pm", amount := 100,
    status := .PENDING, idempotencyKey := "k8", attempts := 1, maxAttempts := 3,
    pspTransactionId := none, completedAt := none, failedAt := none,
    failureReason := none, createdAt := 0 }

def retryDb8 : Db := { emptyDb with payments := [pendingPayment8] }

def failedPayment8 : Payment :=
  { id := 2, tripId := "T2", paymentMethodId := some "pm", amount := 100,
    status := .FAILED, idempotencyKey := "k9", attempts := 1, maxAttempts := 3,
    pspTransactionId := none, completedAt := none, failedAt := some 1,
    failureReason := some "Insufficient funds", createdAt := 0 }

def retryDb8f : Db := { emptyDb with payments := [failedPayment8] }

/-- Completed trip, its ride and the payment request used by the C5
witness. -/
def payTrip5 : Trip :=
  { id := "T5", rideId := "R5", driverId := "D5", status := .COMPLETED,
    startOtp := some "1234", startTime := some 1, endTime := some 2,
    baseFare := 50, perKmRate := 12, perMinRate := 2, discount := 0,
    actualDistance := some 8, distanceFare := 96, timeFare := 40,
    surgeAmount := 0, totalFare := 186, finalFare := 186, platformFee := 37,
    driverEarnings := 149 }

def payRide5 : Ride :=
  { id := "R5", riderId := "RID5", driverId := some "D5", pickup := ⟨19, 72⟩,
    dropoff := ⟨20, 73⟩, rideType := .STANDARD, status := .COMPLETED,
    estimatedFare := some 186, surgeMultiplier := 1, matchedAt := some 1,
    searchAttempts := 0, idempotencyKey := none }

def payDb5 : Db := { emptyDb with trips := [payTrip5], rides := [payRide5] }

def payReq5 : ProcessPaymentRequest := ⟨"T5", "pm5", "k5"⟩

/-- SEARCHING ride and two AVAILABLE drivers for the C1 scenarios. -/
def c1Ride : Ride :=
  { id := "RC1", riderId := "RIDC1", driverId := none, pickup := ⟨19, 72⟩,
    dropoff := ⟨20, 73⟩, rideType := .STANDARD, status := .SEARCHING,
    estimatedFare := some 100, surgeMultiplier := 1, matchedAt := none,
    searchAttempts := 0, idempotencyKey := none }

def c1D1 : Driver := ⟨"DA", "Asha", .AVAILABLE, some 19, some 72, .SEDAN, 5, 0⟩

def c1D2 : Driver := ⟨"DB", "Banu", .AVAILABLE, some 19, some 72, .SEDAN, 5, 0⟩

def c1Db : Db := { emptyDb with rides := [c1Ride], drivers := [c1D1, c1D2] }

/-- SEARCHING ride with two equidistant, equally rated candidates whose
ids are in descending order and whose vehicle types differ, for the C7
scenarios. -/
def c7Ride : Ride :=
  { id := "RC7", riderId := "RIDC7", driverId := none, pickup := ⟨19, 72⟩,
    dropoff := ⟨20, 73⟩, rideType := .STANDARD, status := .SEARCHING,
    estimatedFare := some 100, surgeMultiplier := 1, matchedAt := none,
    searchAttempts := 0, idempotencyKey := none }

def c7DrvSedan : Driver := ⟨"D1", "Sia", .AVAILABLE, some 19, some 72, .SEDAN, 5, 0⟩

def c7DrvSUV : Driver := ⟨"D2", "Tara", .AVAILABLE, some 19, some 72, .SUV, 5, 0⟩

def c7Db : Db := { emptyDb with rides := [c7Ride], drivers := [c7DrvSUV, c7DrvSedan] }

def c7D1 : NearbyDriver := ⟨"D1", 1, 9/2, some .SEDAN⟩

def c7D2 : NearbyDriver := ⟨"D2", 1, 9/2, some .SUV⟩


/-! ## Theorems -/

theorem jsRound_gt (x : ℚ) : x - 1/2 < jsRound x := by
  have h := Int.sub_one_lt_floor (x + 1/2)
  unfold jsRound
  linarith

theorem jsRound_le (x : ℚ) : (jsRound x : ℚ) ≤ x + 1/2 := Int.floor_le _

theorem jsRound_nonneg {x : ℚ} (hx : 0 ≤ x) : 0 ≤ jsRound x := by
  unfold jsRound
  exact Int.le_floor.mpr (by push_cast; linarith)

theorem round2_nonneg {x : ℚ} (hx : 0 ≤ x) : 0 ≤ round2 x := by
  unfold round2
  have h : (0 : ℤ) ≤ jsRound (x * 100) := jsRound_nonneg (by positivity)
  have h2 : (0 : ℚ) ≤ (jsRound (x * 100) : ℚ) := by exact_mod_cast h
  positivity

/-- C2 (amended): for every input, `calculateFare` returns exactly the spec
formulas with every monetary output rounded to two decimals half up (JS
`Math.round`, ties toward positive infinity), and on the seed input
distance 8.7 km, duration 1200 s, base 50, perKm 12, perMin 2, surge 1.2,
discount 0 it returns distanceFare 104.40, timeFare 40.00,
surgeAmount 38.88, finalFare 233.28, platformFee 46.66 and
driverEarnings 186.62. -/
theorem calculateFare_matches_spec_halfup :
    (∀ distance duration baseFare perKmRate perMinRate surgeMultiplier discount : ℚ,
      calculateFare distance duration baseFare perKmRate perMinRate surgeMultiplier discount =
        fareSpecHalfUp distance duration baseFare perKmRate perMinRate surgeMultiplier discount) ∧
    calculateFare (87/10) 1200 50 12 2 (12/10) 0 =
      { baseFare := 50, distanceFare := 10440/100, timeFare := 4000/100,
        surgeAmount := 3888/100, totalFare := 23328/100, discount := 0,
        finalFare := 23328/100, platformFee := 4666/100,
        driverEarnings := 18662/100 } := by
  constructor
  · intro distance duration baseFare perKmRate perMinRate surgeMultiplier discount
    rfl
  · norm_num [calculateFare, round2, jsRound]

/-- C2 (counterexample): the claim says monetary outputs are rounded with
banker's half-to-even rounding.  On the input with baseFare 0.125 and all
other inputs trivial, the raw final fare is 0.125; `calculateFare`
returns 0.13 (JS `Math.round` rounds the tie 12.5 up) while banker's
rounding gives 0.12. -/
theorem calculateFare_bankers_rounding_fails :
    (calculateFare 0 0 (1/8) 0 0 1 0).finalFare = 13/100 ∧
    (fareSpecBankers 0 0 (1/8) 0 0 1 0).finalFare = 12/100 ∧
    (13/100 : ℚ) ≠ 12/100 := by
  refine ⟨?_, ?_, by norm_num⟩
  · norm_num [calculateFare, round2, jsRound]
  · norm_num [fareSpecBankers, bankersRound2, bankersRound]

/-- C3 (amended): every fare calculation yields a nonnegative final fare,
and the platform fee plus the driver earnings equal the final fare to
within one rounding unit (0.01): because the three amounts are rounded
independently, the sum can differ from the final fare by exactly one
cent, but never more. -/
theorem calculateFare_nonneg_and_conserves_within_rounding
    (d t b pk pm s disc : ℚ) :
    0 ≤ (calculateFare d t b pk pm s disc).finalFare ∧
    |(calculateFare d t b pk pm s disc).platformFee +
      (calculateFare d t b pk pm s disc).driverEarnings -
      (calculateFare d t b pk pm s disc).finalFare| ≤ 1/100 := by
  simp only [calculateFare]
  set f := max 0 (b + d * pk + t / 60 * pm + (b + d * pk + t / 60 * pm) * (s - 1) - disc) with hf
  have hf0 : 0 ≤ f := le_max_left _ _
  constructor
  · exact round2_nonneg hf0
  · set a := jsRound (f * (2/10) * 100) with ha
    set bb := jsRound ((f - f * (2/10)) * 100) with hb
    set c := jsRound (f * 100) with hc
    have ha1 : f * (2/10) * 100 - 1/2 < (a : ℚ) := jsRound_gt _
    have ha2 : (a : ℚ) ≤ f * (2/10) * 100 + 1/2 := jsRound_le _
    have hb1 : (f - f * (2/10)) * 100 - 1/2 < (bb : ℚ) := jsRound_gt _
    have hb2 : (bb : ℚ) ≤ (f - f * (2/10)) * 100 + 1/2 := jsRound_le _
    have hc1 : f * 100 - 1/2 < (c : ℚ) := jsRound_gt _
    have hc2 : (c : ℚ) ≤ f * 100 + 1/2 := jsRound_le _
    have hlt : ((a + bb - c : ℤ) : ℚ) < 2 := by push_cast; linarith
    have hgt : (-2 : ℚ) < ((a + bb - c : ℤ) : ℚ) := by push_cast; linarith
    have hz1 : a + bb - c < 2 := by exact_mod_cast hlt
    have hz2 : (-2 : ℤ) < a + bb - c := by exact_mod_cast hgt
    have habs : |a + bb - c| ≤ 1 := abs_le.mpr ⟨by omega, by omega⟩
    have habsq : |((a + bb - c : ℤ) : ℚ)| ≤ 1 := by exact_mod_cast habs
    unfold round2
    rw [← ha, ← hb, ← hc]
    have hsum : (a : ℚ)/100 + (bb : ℚ)/100 - (c : ℚ)/100 = ((a + bb - c : ℤ) : ℚ)/100 := by
      push_cast; ring
    rw [hsum, abs_div, show |(100:ℚ)| = 100 by norm_num]
    linarith [habsq]

/-- C3 (counterexample): exact conservation fails.  With baseFare 0.015
and all other inputs trivial, the rounded components are
platformFee 0.00 and driverEarnings 0.01, which sum to 0.01, while the
rounded finalFare is 0.02. -/
theorem calculateFare_exact_conservation_fails :
    (calculateFare 0 0 (3/200) 0 0 1 0).platformFee +
      (calculateFare 0 0 (3/200) 0 0 1 0).driverEarnings = 1/100 ∧
    (calculateFare 0 0 (3/200) 0 0 1 0).finalFare = 2/100 ∧
    (1/100 : ℚ) ≠ 2/100 := by
  refine ⟨?_, ?_, by norm_num⟩ <;> norm_num [calculateFare, round2, jsRound]

/-- Any request with a zero coordinate is rejected by `validateRideRequest`
with some `ValidationError`, whichever check fires first. -/
theorem validateRideRequest_zero (request : CreateRideRequest)
    (h : request.pickup.lat = 0 ∨ request.pickup.lng = 0 ∨
         request.dropoff.lat = 0 ∨ request.dropoff.lng = 0) :
    ∃ e, validateRideRequest request = some e ∧ e.kind = .validation := by
  unfold validateRideRequest
  split_ifs with h1 h2 h3 h4 h5 h6 h7
  · exact ⟨_, rfl, rfl⟩
  · exact ⟨_, rfl, rfl⟩
  · exact ⟨_, rfl, rfl⟩
  · exact ⟨_, rfl, rfl⟩
  · exact ⟨_, rfl, rfl⟩
  · exact ⟨_, rfl, rfl⟩
  · exact ⟨_, rfl, rfl⟩
  · tauto

/-- C10: a `createRide` request whose pickup or dropoff latitude or
longitude equals 0 fails with a Validation error and leaves the whole
state unchanged (no ride row is created), even though 0 lies inside the
valid ranges: the presence checks use JS truthiness. -/
theorem createRide_zero_coordinate_rejected (hav : Location → Location → ℚ)
    (request : CreateRideRequest) (db : Db)
    (h : request.pickup.lat = 0 ∨ request.pickup.lng = 0 ∨
         request.dropoff.lat = 0 ∨ request.dropoff.lng = 0) :
    ∃ e, createRide hav request db = (.error e, db) ∧ e.kind = .validation := by
  obtain ⟨e, he, hk⟩ := validateRideRequest_zero request h
  refine ⟨e, ?_, hk⟩
  unfold createRide
  rw [he]

/-- Witness for C10 at the concrete request with pickup latitude 0. -/
theorem createRide_zero_coordinate_rejected_witness :
    ∃ e, createRide (fun _ _ => 0) zeroLatRequest emptyDb = (.error e, emptyDb) ∧
      e.kind = .validation :=
  createRide_zero_coordinate_rejected (fun _ _ => 0) zeroLatRequest emptyDb (Or.inl rfl)

/-- C9 (counterexample): driver D1 has a known position with latitude 0.
After `updateDriverAvailability` to AVAILABLE the driver is absent from
the geo index, because the source guards the `addAvailableDriver` call
with JS truthiness of the coordinates; the claim requires presence. -/
theorem updateDriverAvailability_zero_latitude_missing :
    ((updateDriverAvailability "D1" .AVAILABLE geoDb9).2.geoIndex = []) ∧
    (geoDb9.drivers.find? (fun d => d.id == "D1")).map Driver.currentLat =
      some (some 0) ∧
    (updateDriverAvailability "D1" .AVAILABLE geoDb9).1 =
      .ok ⟨"D1", "Dana", .AVAILABLE, some 0, some 72, .SEDAN, 5, 0⟩ := by
  refine ⟨rfl, rfl, rfl⟩

/-- C9 (amended): after `updateDriverAvailability`, transitioning to a
non-AVAILABLE status removes the driver from the geo index; transitioning
to AVAILABLE adds the driver (with vehicle type and rating metadata)
exactly when both stored coordinates are truthy (non-null and non-zero);
transitioning to AVAILABLE with a falsy coordinate leaves the geo index
unchanged, so a stale entry is neither added nor removed. -/
theorem updateDriverAvailability_geo (driverId : String)
    (status : DriverStatus) (db : Db) (driver : Driver)
    (hfind : db.drivers.find? (fun d => d.id == driverId) = some driver) :
    (updateDriverAvailability driverId status db).1 =
      .ok { driver with status := status } ∧
    (status ≠ .AVAILABLE →
      ((updateDriverAvailability driverId status db).2.geoIndex.filter
        (fun g => g.driverId == driverId)) = []) ∧
    (status = .AVAILABLE → truthy driver.currentLat = true →
      truthy driver.currentLng = true →
      ((updateDriverAvailability driverId status db).2.geoIndex.filter
        (fun g => g.driverId == driverId)) =
        [⟨driverId, driver.currentLat.getD 0, driver.currentLng.getD 0,
          some driver.vehicleType, some driver.rating⟩]) ∧
    (status = .AVAILABLE →
      (truthy driver.currentLat && truthy driver.currentLng) = false →
      (updateDriverAvailability driverId status db).2.geoIndex = db.geoIndex) := by
  refine ⟨?_, ?_, ?_, ?_⟩
  · unfold updateDriverAvailability
    rw [hfind]
    dsimp only
    split_ifs <;> rfl
  · intro hs
    unfold updateDriverAvailability
    rw [hfind]
    dsimp only
    simp only [if_neg hs]
    simp [removeAvailableDriver, List.filter_filter, bne]
  · intro hs h1 h2
    subst hs
    unfold updateDriverAvailability
    rw [hfind]
    dsimp only
    simp only [if_pos rfl, h1, h2, Bool.and_self, if_true]
    simp [addAvailableDriver, List.filter_append, List.filter_filter, bne]
  · intro hs ht
    subst hs
    unfold updateDriverAvailability
    rw [hfind]
    dsimp only
    simp only [eq_self_iff_true, if_true, ht, Bool.false_eq_true, if_false]

/-- Witness for C9 (amended) at a concrete driver with a truthy stored
position, transitioning to AVAILABLE. -/
theorem updateDriverAvailability_geo_witness :
    (updateDriverAvailability "D2" .AVAILABLE availDb9).1 =
      .ok { availDriver9 with status := .AVAILABLE } ∧
    (DriverStatus.AVAILABLE ≠ .AVAILABLE →
      ((updateDriverAvailability "D2" .AVAILABLE availDb9).2.geoIndex.filter
        (fun g => g.driverId == "D2")) = []) ∧
    (DriverStatus.AVAILABLE = .AVAILABLE → truthy availDriver9.currentLat = true →
      truthy availDriver9.currentLng = true →
      ((updateDriverAvailability "D2" .AVAILABLE availDb9).2.geoIndex.filter
        (fun g => g.driverId == "D2")) =
        [⟨"D2", availDriver9.currentLat.getD 0, availDriver9.currentLng.getD 0,
          some availDriver9.vehicleType, some availDriver9.rating⟩]) ∧
    (DriverStatus.AVAILABLE = .AVAILABLE →
      (truthy availDriver9.currentLat && truthy availDriver9.currentLng) = false →
      (updateDriverAvailability "D2" .AVAILABLE availDb9).2.geoIndex =
        availDb9.geoIndex) :=
  updateDriverAvailability_geo "D2" .AVAILABLE availDb9 availDriver9 rfl

/-- Auxiliary: any null, empty or mismatched OTP makes `startTrip` fail
with Validation and leave the state unchanged. -/
theorem startTrip_invalid_otp (request : StartTripRequest) (now : Nat)
    (db : Db) (trip : Trip)
    (hfind : db.trips.find? (fun t => t.id == request.tripId) = some trip)
    (hp : trip.status = .PENDING)
    (hbad : trip.startOtp = none ∨
      ∃ otp, trip.startOtp = some otp ∧ (otp = "" ∨ request.startOtp ≠ otp)) :
    startTrip request now db = (.error ⟨.validation, "Invalid OTP"⟩, db) := by
  have hnp : ¬ trip.status ≠ TripStatus.PENDING := by simp [hp]
  unfold startTrip
  rw [hfind]
  dsimp only
  rw [if_neg hnp]
  rcases hbad with hnone | ⟨otp, hsome, hrest⟩
  · rw [hnone]
  · rw [hsome]
    dsimp only
    by_cases he : otp = ""
    · rw [if_pos he]
    · rw [if_neg he]
      rcases hrest with h | h
      · exact absurd h he
      · rw [if_neg h]

/-- Auxiliary: the full effect of a successful `startTrip`. -/
theorem startTrip_success_eq (request : StartTripRequest) (now : Nat)
    (db : Db) (trip : Trip) (otp : String) (ride : Ride)
    (hfind : db.trips.find? (fun t => t.id == request.tripId) = some trip)
    (hp : trip.status = .PENDING)
    (hotp : trip.startOtp = some otp) (hne : otp ≠ "")
    (heq : request.startOtp = otp)
    (hride : db.rides.find? (fun r => r.id == trip.rideId) = some ride) :
    startTrip request now db =
      (.ok { trip with startTime := some now, status := .STARTED },
        { db with
          trips := (db.trips.map (fun t =>
            if t.id = request.tripId then
              { t with startTime := some now, status := .STARTED }
            else t)),
          rides := (db.rides.map (fun r =>
            if r.id = trip.rideId then { r with status := .IN_PROGRESS }
            else r)),
          notifications := db.notifications ++
            [⟨some ride.riderId, none, "TRIP_STARTED", "Trip Started",
              "Your trip has started. Have a safe journey!",
              some trip.rideId, none⟩],
          rideEvents := db.rideEvents ++ [⟨trip.rideId, "trip_started", none⟩] }) := by
  have hnp : ¬ trip.status ≠ TripStatus.PENDING := by simp [hp]
  unfold startTrip
  rw [hfind]
  dsimp only
  rw [if_neg hnp, hotp]
  dsimp only
  rw [if_neg hne, if_pos heq, hride]

/-- C4: for an existing PENDING trip, `startTrip` with a missing stored
OTP or a mismatched supplied OTP returns a Validation error ("Invalid
OTP") and returns the state unchanged (no ride, trip, driver or
notification mutation); when it succeeds the supplied OTP equals the
stored one, the trip becomes STARTED with startTime set, and the linked
ride becomes IN_PROGRESS. -/
theorem startTrip_otp_gate (request : StartTripRequest) (now : Nat)
    (db : Db) (trip : Trip)
    (hfind : db.trips.find? (fun t => t.id == request.tripId) = some trip)
    (hp : trip.status = .PENDING) :
    (trip.startOtp = none →
      startTrip request now db = (.error ⟨.validation, "Invalid OTP"⟩, db)) ∧
    (∀ otp, trip.startOtp = some otp → request.startOtp ≠ otp →
      startTrip request now db = (.error ⟨.validation, "Invalid OTP"⟩, db)) ∧
    (∀ tr, (startTrip request now db).1 = .ok tr →
      trip.startOtp = some request.startOtp ∧
      tr = { trip with startTime := some now, status := .STARTED } ∧
      (∀ t ∈ (startTrip request now db).2.trips, t.id = request.tripId →
        t.status = .STARTED ∧ t.startTime = some now) ∧
      (∀ r ∈ (startTrip request now db).2.rides, r.id = trip.rideId →
        r.status = .IN_PROGRESS)) := by
  refine ⟨?_, ?_, ?_⟩
  · intro hnone
    exact startTrip_invalid_otp request now db trip hfind hp (Or.inl hnone)
  · intro otp hsome hne
    exact startTrip_invalid_otp request now db trip hfind hp
      (Or.inr ⟨otp, hsome, Or.inr hne⟩)
  · intro tr htr
    cases hotp : trip.startOtp with
    | none =>
      rw [startTrip_invalid_otp request now db trip hfind hp (Or.inl hotp)] at htr
      exact absurd htr (by simp)
    | some otp =>
      by_cases he : otp = ""
      · rw [startTrip_invalid_otp request now db trip hfind hp
          (Or.inr ⟨otp, hotp, Or.inl he⟩)] at htr
        exact absurd htr (by simp)
      by_cases heq : request.startOtp = otp
      case neg =>
        rw [startTrip_invalid_otp request now db trip hfind hp
          (Or.inr ⟨otp, hotp, Or.inr heq⟩)] at htr
        exact absurd htr (by simp)
      cases hride : db.rides.find? (fun r => r.id == trip.rideId) with
      | none =>
        have hnp : ¬ trip.status ≠ TripStatus.PENDING := by simp [hp]
        have hfail : startTrip request now db =
            (.error ⟨.unprocessable, "Trip ride missing"⟩, db) := by
          unfold startTrip
          rw [hfind]
          dsimp only
          rw [if_neg hnp, hotp]
          dsimp only
          rw [if_neg he, if_pos heq, hride]
        rw [hfail] at htr
        exact absurd htr (by simp)
      | some ride =>
        have hsucc := startTrip_success_eq request now db trip otp ride
          hfind hp hotp he heq hride
        rw [hsucc] at htr ⊢
        refine ⟨by rw [heq], by simpa [hotp] using htr.symm, ?_, ?_⟩
        · intro t ht hid
          simp only [List.mem_map] at ht
          obtain ⟨t0, ht0, rfl⟩ := ht
          by_cases h0 : t0.id = request.tripId
          · rw [if_pos h0]
            exact ⟨rfl, rfl⟩
          · rw [if_neg h0] at hid ⊢
            exact absurd hid h0
        · intro r hr hid
          simp only [List.mem_map] at hr
          obtain ⟨r0, hr0, rfl⟩ := hr
          by_cases h0 : r0.id = trip.rideId
          · rw [if_pos h0]
          · rw [if_neg h0] at hid ⊢
            exact absurd hid h0

/-- Witness for C4 at the concrete PENDING trip T1 with stored OTP
"1234" and a caller supplying OTP "0000". -/
theorem startTrip_otp_gate_witness :
    (otpTrip4.startOtp = none →
      startTrip ⟨"T1", "0000"⟩ 42 otpDb4 =
        (.error ⟨.validation, "Invalid OTP"⟩, otpDb4)) ∧
    (∀ otp, otpTrip4.startOtp = some otp →
      (StartTripRequest.mk "T1" "0000").startOtp ≠ otp →
      startTrip ⟨"T1", "0000"⟩ 42 otpDb4 =
        (.error ⟨.validation, "Invalid OTP"⟩, otpDb4)) ∧
    (∀ tr, (startTrip ⟨"T1", "0000"⟩ 42 otpDb4).1 = .ok tr →
      otpTrip4.startOtp = some (StartTripRequest.mk "T1" "0000").startOtp ∧
      tr = { otpTrip4 with startTime := some 42, status := .STARTED } ∧
      (∀ t ∈ (startTrip ⟨"T1", "0000"⟩ 42 otpDb4).2.trips, t.id = "T1" →
        t.status = .STARTED ∧ t.startTime = some 42) ∧
      (∀ r ∈ (startTrip ⟨"T1", "0000"⟩ 42 otpDb4).2.rides, r.id = otpTrip4.rideId →
        r.status = .IN_PROGRESS)) :=
  startTrip_otp_gate ⟨"T1", "0000"⟩ 42 otpDb4 otpTrip4 rfl rfl


/-- C6 (counterexample): the claim says cancellation is not legal from
IN_PROGRESS, but the source only excludes COMPLETED and CANCELLED: on a
ride in IN_PROGRESS, `cancelRide` succeeds, the ride becomes CANCELLED
and the assigned driver is set back to AVAILABLE. -/
theorem cancelRide_in_progress_succeeds :
    ((cancelDb6.rides.find? (fun r => r.id == "R6")).map Ride.status =
      some .IN_PROGRESS) ∧
    (cancelRide ⟨"R6", "rider", none⟩ cancelDb6).1 =
      .ok { cancelRide6 with status := .CANCELLED } ∧
    ((cancelRide ⟨"R6", "rider", none⟩ cancelDb6).2.drivers.map Driver.status) =
      [.AVAILABLE] := by
  refine ⟨rfl, rfl, rfl⟩

/-- C6 (amended): `cancelRide` succeeds exactly when a ride with the
requested id has status other than COMPLETED or CANCELLED (so SEARCHING,
MATCHED, DRIVER_ARRIVING, ARRIVED, and also IN_PROGRESS and FAILED); on
success the ride becomes CANCELLED, an assigned driver is restored to
AVAILABLE, and a `ride_cancelled` event is appended carrying a
cancellation fee of 10 percent of the estimated fare (integer rounded
with JS `Math.round`) when the prior state was MATCHED, DRIVER_ARRIVING
or ARRIVED, and fee 0 otherwise (including from IN_PROGRESS). -/
theorem cancelRide_spec (request : CancelRideRequest) (db : Db) :
    (db.rides.find? (cancellablePred request.rideId) = none →
      cancelRide request db =
        (.error ⟨.notFound, "Ride not found or cannot be cancelled"⟩, db)) ∧
    (∀ ride, db.rides.find? (cancellablePred request.rideId) = some ride →
      (cancelRide request db).1 = .ok { ride with status := .CANCELLED } ∧
      (∀ r ∈ (cancelRide request db).2.rides, r.id = request.rideId →
        r.status = .CANCELLED) ∧
      (∀ dId, ride.driverId = some dId →
        ∀ d ∈ (cancelRide request db).2.drivers, d.id = dId →
          d.status = .AVAILABLE) ∧
      (cancelRide request db).2.rideEvents = db.rideEvents ++
        [⟨ride.id, "ride_cancelled",
          some (if ride.status = .MATCHED ∨ ride.status = .DRIVER_ARRIVING ∨
              ride.status = .ARRIVED
            then ((jsRound ((ride.estimatedFare.getD 0) * (1/10)) : ℤ) : ℚ)
            else 0)⟩]) := by
  constructor
  · intro hnone
    unfold cancelRide
    rw [hnone]
  · intro ride hfind
    unfold cancelRide
    rw [hfind]
    dsimp only
    cases hdrv : ride.driverId with
    | none =>
      dsimp only
      cases htrip : db.trips.find? (fun t => t.rideId == ride.id) with
      | none =>
        dsimp only
        refine ⟨rfl, ?_, ?_, rfl⟩
        · intro r hr hid
          simp only [List.mem_map] at hr
          obtain ⟨r0, hr0, rfl⟩ := hr
          by_cases h0 : r0.id = request.rideId
          · rw [if_pos h0]
          · rw [if_neg h0] at hid ⊢
            exact absurd hid h0
        · intro dId hd
          exact Option.noConfusion hd
      | some trip =>
        dsimp only
        refine ⟨rfl, ?_, ?_, rfl⟩
        · intro r hr hid
          simp only [List.mem_map] at hr
          obtain ⟨r0, hr0, rfl⟩ := hr
          by_cases h0 : r0.id = request.rideId
          · rw [if_pos h0]
          · rw [if_neg h0] at hid ⊢
            exact absurd hid h0
        · intro dId hd
          exact Option.noConfusion hd
    | some dId0 =>
      dsimp only
      cases htrip : db.trips.find? (fun t => t.rideId == ride.id) with
      | none =>
        dsimp only
        refine ⟨rfl, ?_, ?_, rfl⟩
        · intro r hr hid
          simp only [List.mem_map] at hr
          obtain ⟨r0, hr0, rfl⟩ := hr
          by_cases h0 : r0.id = request.rideId
          · rw [if_pos h0]
          · rw [if_neg h0] at hid ⊢
            exact absurd hid h0
        · intro dId hd d hdmem hdid
          have : dId = dId0 := by
            exact (Option.some.injEq _ _).mp hd.symm
          subst this
          simp only [List.mem_map] at hdmem
          obtain ⟨d0, hd0, rfl⟩ := hdmem
          by_cases h0 : d0.id = dId
          · rw [if_pos h0]
          · rw [if_neg h0] at hdid ⊢
            exact absurd hdid h0
      | some trip =>
        dsimp only
        refine ⟨rfl, ?_, ?_, rfl⟩
        · intro r hr hid
          simp only [List.mem_map] at hr
          obtain ⟨r0, hr0, rfl⟩ := hr
          by_cases h0 : r0.id = request.rideId
          · rw [if_pos h0]
          · rw [if_neg h0] at hid ⊢
            exact absurd hid h0
        · intro dId hd d hdmem hdid
          have : dId = dId0 := by
            exact (Option.some.injEq _ _).mp hd.symm
          subst this
          simp only [List.mem_map] at hdmem
          obtain ⟨d0, hd0, rfl⟩ := hdmem
          by_cases h0 : d0.id = dId
          · rw [if_pos h0]
          · rw [if_neg h0] at hdid ⊢
            exact absurd hdid h0

/-- Witness for C6 (amended) on a concrete MATCHED ride with estimated
fare 100; the recorded cancellation fee is 10. -/
theorem cancelRide_spec_witness :
    (cancelRide ⟨"R7", "rider", none⟩ cancelDb7).1 =
      .ok { cancelRide7 with status := .CANCELLED } ∧
    (cancelRide ⟨"R7", "rider", none⟩ cancelDb7).2.rideEvents =
      cancelDb7.rideEvents ++ [⟨"R7", "ride_cancelled", some 10⟩] := by
  have h := (cancelRide_spec ⟨"R7", "rider", none⟩ cancelDb7).2 cancelRide7 rfl
  refine ⟨h.1, ?_⟩
  have h4 := h.2.2.2
  simp only [cancelRide7] at h4
  norm_num [jsRound] at h4
  exact h4

/-- C8 (counterexample): the claim allows retry only from FAILED, but the
source only rejects COMPLETED: a PENDING payment with attempts below
maxAttempts is retried successfully. -/
theorem retryPayment_pending_allowed :
    ((retryDb8.payments.find? (fun p => p.id == 1)).map Payment.status =
      some .PENDING) ∧
    ∃ r, (retryPayment 1 (fun _ => true) 5 retryDb8).1 = .ok r :=
  ⟨rfl, ⟨_, rfl⟩⟩

/-- C8 (amended): `retryPayment` rejects a COMPLETED payment with a
Validation error, rejects a payment whose attempts already reached
maxAttempts (default 3) with a Validation error, and otherwise - from any
non-COMPLETED status, not only FAILED - proceeds and increments the
attempt counter. -/
theorem retryPayment_spec (paymentId : Nat) (psp : Nat → Bool) (now : Nat)
    (db : Db) (payment : Payment)
    (hfind : db.payments.find? (fun p => p.id == paymentId) = some payment) :
    (payment.status = .COMPLETED →
      retryPayment paymentId psp now db =
        (.error ⟨.validation, "Payment already completed"⟩, db)) ∧
    (payment.status ≠ .COMPLETED → payment.maxAttempts ≤ payment.attempts →
      retryPayment paymentId psp now db =
        (.error ⟨.validation, "Maximum retry attempts reached"⟩, db)) ∧
    (payment.status ≠ .COMPLETED → payment.attempts < payment.maxAttempts →
      (∃ r, (retryPayment paymentId psp now db).1 = .ok r) ∧
      (∀ p ∈ (retryPayment paymentId psp now db).2.payments, p.id = paymentId →
        p.attempts = payment.attempts + 1)) := by
  refine ⟨?_, ?_, ?_⟩
  · intro hc
    unfold retryPayment
    rw [hfind]
    dsimp only
    rw [if_pos hc]
  · intro hc hm
    unfold retryPayment
    rw [hfind]
    dsimp only
    rw [if_neg hc, if_pos hm]
  · intro hc hm
    have hm2 : ¬ payment.maxAttempts ≤ payment.attempts := by omega
    constructor
    · unfold retryPayment
      rw [hfind]
      dsimp only
      rw [if_neg hc, if_neg hm2]
      exact ⟨_, rfl⟩
    · intro p hp hid
      unfold retryPayment at hp
      rw [hfind] at hp
      dsimp only at hp
      rw [if_neg hc, if_neg hm2] at hp
      dsimp only at hp
      simp only [List.mem_map] at hp
      obtain ⟨p0, hp0, rfl⟩ := hp
      by_cases h0 : p0.id = paymentId
      · rw [if_pos h0]
      · rw [if_neg h0] at hid ⊢
        exact absurd hid h0

/-- Witness for C8 (amended) on a concrete FAILED payment with
attempts 1 of 3. -/
theorem retryPayment_spec_witness :
    (failedPayment8.status = .COMPLETED →
      retryPayment 2 (fun _ => true) 5 retryDb8f =
        (.error ⟨.validation, "Payment already completed"⟩, retryDb8f)) ∧
    (failedPayment8.status ≠ .COMPLETED →
      failedPayment8.maxAttempts ≤ failedPayment8.attempts →
      retryPayment 2 (fun _ => true) 5 retryDb8f =
        (.error ⟨.validation, "Maximum retry attempts reached"⟩, retryDb8f)) ∧
    (failedPayment8.status ≠ .COMPLETED →
      failedPayment8.attempts < failedPayment8.maxAttempts →
      (∃ r, (retryPayment 2 (fun _ => true) 5 retryDb8f).1 = .ok r) ∧
      (∀ p ∈ (retryPayment 2 (fun _ => true) 5 retryDb8f).2.payments, p.id = 2 →
        p.attempts = failedPayment8.attempts + 1)) :=
  retryPayment_spec 2 (fun _ => true) 5 retryDb8f failedPayment8 rfl

/-- Auxiliary: `find?` skips a prefix in which nothing matches. -/
theorem find?_append_none {α : Type} (p : α → Bool) (l₁ l₂ : List α)
    (h : l₁.find? p = none) : (l₁ ++ l₂).find? p = l₂.find? p := by
  induction l₁ with
  | nil => simp
  | cons a l ih =>
    cases hpa : p a with
    | true =>
      rw [List.find?_cons_of_pos _ hpa] at h
      exact absurd h (by simp)
    | false =>
      rw [List.find?_cons_of_neg _ (by simp [hpa])] at h
      rw [List.cons_append, List.find?_cons_of_neg _ (by simp [hpa])]
      exact ih h

/-- C5: two sequential `processPayment` calls with the same idempotency
key (trip COMPLETED, no prior payment row for the trip, key unused)
return the same response body; the first call creates the single payment
row, issues exactly one PSP charge and stores the response under
`payment:<idempotencyKey>:response` with TTL 3600 seconds (1 hour); the
second call returns the cached response, creates no payment row and
issues no further charge.  The statement holds for either PSP outcome. -/
theorem processPayment_idempotent (request : ProcessPaymentRequest)
    (psp : Nat → Bool) (now now2 : Nat) (db : Db) (trip : Trip) (ride : Ride)
    (hkey : ("payment:" ++ request.idempotencyKey) ∉ db.idemKeys)
    (hnoresp : db.idemResponses.find?
      (fun e => e.1 == ("payment:" ++ request.idempotencyKey) ++ ":response") = none)
    (htrip : db.trips.find? (fun t => t.id == request.tripId) = some trip)
    (hst : trip.status = .COMPLETED)
    (hnop : ∀ p ∈ db.payments, p.tripId ≠ request.tripId)
    (hride : db.rides.find? (fun r => r.id == trip.rideId) = some ride) :
    ∃ resp,
      (processPayment request psp now db).1 = .ok resp ∧
      (processPayment request psp now2 (processPayment request psp now db).2).1 =
        .ok resp ∧
      ((processPayment request psp now db).2.payments.filter
        (fun p => p.tripId == request.tripId)).length = 1 ∧
      (processPayment request psp now2 (processPayment request psp now db).2).2.payments =
        (processPayment request psp now db).2.payments ∧
      (processPayment request psp now db).2.charges = db.charges ++ [trip.finalFare] ∧
      (processPayment request psp now2 (processPayment request psp now db).2).2.charges =
        (processPayment request psp now db).2.charges ∧
      (processPayment request psp now db).2.idemResponses =
        db.idemResponses ++
          [(("payment:" ++ request.idempotencyKey) ++ ":response", 3600, resp)] := by
  have hst2 : ¬ trip.status ≠ TripStatus.COMPLETED := by simp [hst]
  have hpay : db.payments.find? (fun p => p.tripId == request.tripId) = none := by
    rw [List.find?_eq_none]
    intro p hp
    simpa using hnop p hp
  set row : Payment :=
    { id := db.nextId, tripId := request.tripId,
      paymentMethodId := some request.paymentMethodId,
      amount := trip.finalFare,
      status := if psp db.charges.length then .COMPLETED else .FAILED,
      idempotencyKey := request.idempotencyKey, attempts := 1,
      maxAttempts := 3,
      pspTransactionId := if psp db.charges.length then
        some ("txn-" ++ toString db.charges.length) else none,
      completedAt := if psp db.charges.length then some now else none,
      failedAt := if psp db.charges.length then none else some now,
      failureReason := if psp db.charges.length then none
        else some "Insufficient funds",
      createdAt := now } with hrow
  set db1 : Db :=
    { db with
      idemKeys := db.idemKeys ++ ["payment:" ++ request.idempotencyKey],
      payments := db.payments ++ [row],
      charges := db.charges ++ [trip.finalFare],
      notifications := db.notifications ++
        [⟨some ride.riderId, none,
          (if psp db.charges.length then "PAYMENT_SUCCESS" else "PAYMENT_FAILED"),
          (if psp db.charges.length then "Payment Successful" else "Payment Failed"),
          (if psp db.charges.length then "paid successfully"
            else "Payment failed. Please try again."),
          some trip.rideId, none⟩],
      nextId := db.nextId + 1,
      idemResponses := db.idemResponses ++
        [(("payment:" ++ request.idempotencyKey) ++ ":response", 3600,
          toPaymentResponse row)] } with hdb1
  have h1 : processPayment request psp now db = (.ok (toPaymentResponse row), db1) := by
    rw [hrow, hdb1]
    simp only [processPayment, checkIdempotency, if_neg hkey, htrip, if_neg hst2,
      hpay, hride, storeIdempotentResponse, toPaymentResponse, if_true]
  have hk2 : ("payment:" ++ request.idempotencyKey) ∈ db1.idemKeys := by
    rw [hdb1]
    simp
  have hfind2 : db1.idemResponses.find?
      (fun e => e.1 == ("payment:" ++ request.idempotencyKey) ++ ":response") =
      some (("payment:" ++ request.idempotencyKey) ++ ":response", 3600,
        toPaymentResponse row) := by
    rw [hdb1]
    dsimp only
    rw [find?_append_none _ _ _ hnoresp]
    simp
  have h2 : processPayment request psp now2 db1 = (.ok (toPaymentResponse row), db1) := by
    simp only [processPayment, checkIdempotency, if_pos hk2, getIdempotentResponse,
      hfind2, Bool.false_eq_true, if_false]
    rfl
  refine ⟨toPaymentResponse row, ?_, ?_, ?_, ?_, ?_, ?_, ?_⟩
  · rw [h1]
  · rw [h1, h2]
  · rw [h1]
    rw [hdb1]
    dsimp only
    rw [List.filter_append]
    have hleft : db.payments.filter (fun p => p.tripId == request.tripId) = [] := by
      rw [List.filter_eq_nil_iff]
      intro p hp
      simpa using hnop p hp
    rw [hleft]
    simp [hrow]
  · rw [h1, h2]
  · rw [h1, hdb1]
  · rw [h1, h2]
  · rw [h1, hdb1]

/-- Witness for C5 on a concrete COMPLETED trip and an always-approving
PSP. -/
theorem processPayment_idempotent_witness :
    ∃ resp,
      (processPayment payReq5 (fun _ => true) 1 payDb5).1 = .ok resp ∧
      (processPayment payReq5 (fun _ => true) 2
        (processPayment payReq5 (fun _ => true) 1 payDb5).2).1 = .ok resp ∧
      ((processPayment payReq5 (fun _ => true) 1 payDb5).2.payments.filter
        (fun p => p.tripId == payReq5.tripId)).length = 1 ∧
      (processPayment payReq5 (fun _ => true) 2
        (processPayment payReq5 (fun _ => true) 1 payDb5).2).2.payments =
        (processPayment payReq5 (fun _ => true) 1 payDb5).2.payments ∧
      (processPayment payReq5 (fun _ => true) 1 payDb5).2.charges =
        payDb5.charges ++ [payTrip5.finalFare] ∧
      (processPayment payReq5 (fun _ => true) 2
        (processPayment payReq5 (fun _ => true) 1 payDb5).2).2.charges =
        (processPayment payReq5 (fun _ => true) 1 payDb5).2.charges ∧
      (processPayment payReq5 (fun _ => true) 1 payDb5).2.idemResponses =
        payDb5.idemResponses ++
          [(("payment:" ++ payReq5.idempotencyKey) ++ ":response", 3600, resp)] :=
  processPayment_idempotent payReq5 (fun _ => true) 1 2 payDb5 payTrip5 payRide5
    (by simp [payDb5, emptyDb]) rfl rfl rfl (by simp [payDb5, emptyDb]) rfl

/-- Auxiliary: once the ride is no longer SEARCHING every further
`acceptRide` caller fails and leaves the state untouched. -/
theorem acceptRide_fail_of_none (rideId e : String) (now : Nat) (db : Db)
    (hnone : db.rides.find?
      (fun r => decide (r.id = rideId ∧ r.status = .SEARCHING)) = none) :
    acceptRide rideId e now db =
      (.error ⟨.badRequest, "Ride not found or not available for matching"⟩, db) := by
  unfold acceptRide
  rw [hnone]

/-- Auxiliary: a whole batch of late callers fails, state unchanged. -/
theorem runAccepts_all_fail (rideId : String) (now : Nat) (ds : List String)
    (db : Db)
    (hnone : db.rides.find?
      (fun r => decide (r.id = rideId ∧ r.status = .SEARCHING)) = none) :
    runAccepts rideId now ds db =
      (ds.map (fun _ =>
        .error ⟨.badRequest, "Ride not found or not available for matching"⟩), db) := by
  induction ds with
  | nil => rfl
  | cons d ds ih =>
    unfold runAccepts
    rw [acceptRide_fail_of_none rideId d now db hnone]
    dsimp only
    rw [ih]
    rfl

/-- Auxiliary: the full effect of the winning `acceptRide` call. -/
theorem acceptRide_winner (rideId d : String) (now : Nat) (db : Db)
    (ride : Ride) (driver : Driver)
    (hfind : db.rides.find?
      (fun r => decide (r.id = rideId ∧ r.status = .SEARCHING)) = some ride)
    (hdrv : db.drivers.find?
      (fun x => decide (x.id = d ∧ x.status = .AVAILABLE)) = some driver) :
    acceptRide rideId d now db =
      (.ok (ride.id, "Ride accepted successfully"),
        { db with
          rides := (db.rides.map (fun r => if r.id = rideId then
            { r with driverId := some d, status := RideStatus.MATCHED, matchedAt := some now }
            else r)),
          drivers := (db.drivers.map (fun x => if x.id = d then
            { x with status := .ON_RIDE } else x)),
          geoIndex := db.geoIndex.filter (fun g => g.driverId != d),
          notifications := db.notifications ++
            [⟨some ride.riderId, none, "RIDE_MATCHED", "Driver Found!",
              driver.name ++ " is on the way", some ride.id, none⟩,
             ⟨none, some d, "RIDE_REQUEST", "New Ride",
              "You have been matched with a rider", some ride.id, none⟩],
          rideEvents := db.rideEvents ++ [⟨ride.id, "driver_matched", none⟩] }) := by
  unfold acceptRide
  rw [hfind]
  dsimp only
  rw [hdrv]

/-- C1 (amended): for a SEARCHING ride and any serialized order of
`acceptRide` callers whose first driver is AVAILABLE, exactly the first
caller succeeds - assigning its driver, setting the ride MATCHED with
matchedAt and the driver ON_RIDE - and every other caller fails with the
thrown BadRequest error "Ride not found or not available for matching"
(not a typed Conflict error) while changing nothing, so at most one
driver is ever assigned to the ride. -/
theorem acceptRide_single_winner (rideId : String) (now : Nat) (d : String)
    (ds : List String) (db : Db) (ride : Ride)
    (hfind : db.rides.find?
      (fun r => decide (r.id = rideId ∧ r.status = .SEARCHING)) = some ride)
    (hd : ∃ dr ∈ db.drivers, dr.id = d ∧ dr.status = .AVAILABLE) :
    (runAccepts rideId now (d :: ds) db).1 =
      .ok (ride.id, "Ride accepted successfully") ::
        ds.map (fun _ =>
          .error ⟨.badRequest, "Ride not found or not available for matching"⟩) ∧
    (runAccepts rideId now (d :: ds) db).2 = (acceptRide rideId d now db).2 ∧
    (∀ r ∈ (runAccepts rideId now (d :: ds) db).2.rides, r.id = rideId →
      r.status = .MATCHED ∧ r.driverId = some d ∧ r.matchedAt = some now) ∧
    (∀ x ∈ (runAccepts rideId now (d :: ds) db).2.drivers, x.id = d →
      x.status = .ON_RIDE) := by
  have hdrv : ∃ driver, db.drivers.find?
      (fun x => decide (x.id = d ∧ x.status = .AVAILABLE)) = some driver := by
    obtain ⟨dr, hmem, hid, hav⟩ := hd
    have : (db.drivers.find? (fun x => decide (x.id = d ∧ x.status = .AVAILABLE))).isSome := by
      rw [List.find?_isSome]
      exact ⟨dr, hmem, by simp [hid, hav]⟩
    exact Option.isSome_iff_exists.mp this
  obtain ⟨driver, hdrv⟩ := hdrv
  have hwin := acceptRide_winner rideId d now db ride driver hfind hdrv
  have hnone2 : (acceptRide rideId d now db).2.rides.find?
      (fun r => decide (r.id = rideId ∧ r.status = .SEARCHING)) = none := by
    rw [hwin]
    dsimp only
    rw [List.find?_eq_none]
    intro r hr
    simp only [List.mem_map] at hr
    obtain ⟨r0, hr0, rfl⟩ := hr
    by_cases h0 : r0.id = rideId
    · rw [if_pos h0]
      simp
    · rw [if_neg h0]
      simp [h0]
  have htail := runAccepts_all_fail rideId now ds (acceptRide rideId d now db).2 hnone2
  have hrun : runAccepts rideId now (d :: ds) db =
      ((acceptRide rideId d now db).1 ::
        ds.map (fun _ =>
          .error ⟨.badRequest, "Ride not found or not available for matching"⟩),
        (acceptRide rideId d now db).2) := by
    unfold runAccepts
    dsimp only
    rw [htail]
  refine ⟨?_, ?_, ?_, ?_⟩
  · rw [hrun]
    dsimp only
    rw [hwin]
  · rw [hrun]
  · rw [hrun]
    dsimp only
    rw [hwin]
    dsimp only
    intro r hr hid
    simp only [List.mem_map] at hr
    obtain ⟨r0, hr0, rfl⟩ := hr
    by_cases h0 : r0.id = rideId
    · rw [if_pos h0]
      exact ⟨rfl, rfl, rfl⟩
    · rw [if_neg h0] at hid ⊢
      exact absurd hid h0
  · rw [hrun]
    dsimp only
    rw [hwin]
    dsimp only
    intro x hx hid
    simp only [List.mem_map] at hx
    obtain ⟨x0, hx0, rfl⟩ := hx
    by_cases h0 : x0.id = d
    · rw [if_pos h0]
    · rw [if_neg h0] at hid ⊢
      exact absurd hid h0

/-- C1 (counterexample): with two AVAILABLE drivers accepting the same
SEARCHING ride, the loser receives a `BadRequestError`, not the Conflict
error the claim states (the ConflictError type exists and is used by
`matchRideWithDriver`, so the kinds are distinct). -/
theorem acceptRide_loser_gets_badRequest :
    (runAccepts "RC1" 7 ["DA", "DB"] c1Db).1 =
      [.ok ("RC1", "Ride accepted successfully"),
       .error ⟨.badRequest, "Ride not found or not available for matching"⟩] ∧
    ErrKind.badRequest ≠ ErrKind.conflict := by
  exact ⟨rfl, by simp⟩

/-- Witness for C1 (amended) on the concrete two-caller scenario. -/
theorem acceptRide_single_winner_witness :
    (runAccepts "RC1" 7 ["DA", "DB"] c1Db).1 =
      .ok (c1Ride.id, "Ride accepted successfully") ::
        ["DB"].map (fun _ =>
          .error ⟨.badRequest, "Ride not found or not available for matching"⟩) ∧
    (runAccepts "RC1" 7 ["DA", "DB"] c1Db).2 = (acceptRide "RC1" "DA" 7 c1Db).2 ∧
    (∀ r ∈ (runAccepts "RC1" 7 ["DA", "DB"] c1Db).2.rides, r.id = "RC1" →
      r.status = .MATCHED ∧ r.driverId = some "DA" ∧ r.matchedAt = some 7) ∧
    (∀ x ∈ (runAccepts "RC1" 7 ["DA", "DB"] c1Db).2.drivers, x.id = "DA" →
      x.status = .ON_RIDE) :=
  acceptRide_single_winner "RC1" 7 "DA" ["DB"] c1Db c1Ride rfl
    ⟨c1D1, by simp [c1Db, emptyDb], rfl, rfl⟩

/-- Auxiliary: the comparator is antisymmetric (both branches negate
under swapping, since the distance window is symmetric). -/
theorem driverCompare_antisymm (a b : NearbyDriver) :
    driverCompare a b = -driverCompare b a := by
  unfold driverCompare
  rw [abs_sub_comm b.distance a.distance]
  by_cases h : |a.distance - b.distance| < 1/2
  · rw [if_pos h, if_pos h]
    ring
  · rw [if_neg h, if_neg h]
    ring

/-- Auxiliary: one stable insertion permutes. -/
theorem insertDriver_perm (a : NearbyDriver) (l : List NearbyDriver) :
    (insertDriver a l).Perm (a :: l) := by
  induction l with
  | nil => rfl
  | cons b l ih =>
    rw [insertDriver]
    by_cases hc : driverCompare a b < 0
    · rw [if_pos hc]
    · rw [if_neg hc]
      exact (ih.cons b).trans (List.Perm.swap a b l)

/-- Auxiliary: the insertion fold permutes the input onto the
accumulator. -/
theorem sortDrivers_aux_perm (l acc : List NearbyDriver) :
    (List.foldl (fun acc a => insertDriver a acc) acc l).Perm (l ++ acc) := by
  induction l generalizing acc with
  | nil => simp
  | cons x xs ih =>
    rw [List.foldl_cons]
    refine (ih (insertDriver x acc)).trans ?_
    refine (List.Perm.append_left xs (insertDriver_perm x acc)).trans ?_
    exact List.perm_middle

/-- Auxiliary: the sort is a permutation, so no candidate is dropped -
in particular there is no tier filter. -/
theorem sortDrivers_perm (l : List NearbyDriver) : (sortDrivers l).Perm l := by
  have h := sortDrivers_aux_perm l []
  simpa [sortDrivers] using h

/-- Auxiliary: insertion preserves the adjacent-order invariant of the
comparator. -/
theorem chain'_insertDriver (a : NearbyDriver) (l : List NearbyDriver)
    (h : l.Chain' (fun x y => 0 ≤ driverCompare y x)) :
    (insertDriver a l).Chain' (fun x y => 0 ≤ driverCompare y x) := by
  induction l with
  | nil => simp [insertDriver]
  | cons b l ih =>
    rw [insertDriver]
    by_cases hc : driverCompare a b < 0
    · rw [if_pos hc]
      refine List.chain'_cons.mpr ⟨?_, h⟩
      rw [driverCompare_antisymm b a]
      linarith
    · rw [if_neg hc]
      have htail : l.Chain' (fun x y => 0 ≤ driverCompare y x) := h.tail
      have hins := ih htail
      rw [List.chain'_cons']
      refine ⟨?_, hins⟩
      intro y hy
      cases l with
      | nil =>
        simp only [insertDriver, List.head?] at hy
        cases hy
        linarith
      | cons c l2 =>
        rw [insertDriver] at hy
        by_cases hc2 : driverCompare a c < 0
        · rw [if_pos hc2] at hy
          simp only [List.head?] at hy
          cases hy
          linarith
        · rw [if_neg hc2] at hy
          simp only [List.head?] at hy
          cases hy
          exact (List.chain'_cons.mp h).1

/-- Auxiliary: every adjacent pair of the sorted list is ordered by the
comparator (distance ascending, rating descending inside the 0.5 km
window). -/
theorem sortDrivers_chain (l : List NearbyDriver) :
    (sortDrivers l).Chain' (fun x y => 0 ≤ driverCompare y x) := by
  suffices aux : ∀ (m acc : List NearbyDriver),
      acc.Chain' (fun x y => 0 ≤ driverCompare y x) →
      (List.foldl (fun acc a => insertDriver a acc) acc m).Chain'
        (fun x y => 0 ≤ driverCompare y x) by
    exact aux l [] (by simp)
  intro m
  induction m with
  | nil => intro acc hacc; simpa using hacc
  | cons x xs ih =>
    intro acc hacc
    rw [List.foldl_cons]
    exact ih _ (chain'_insertDriver x acc hacc)

/-- Auxiliary: the candidate loop stops on the first successful
match. -/
theorem tryCandidates_first_success (rideId : String) (now : Nat)
    (c : NearbyDriver) (cs : List NearbyDriver) (db : Db) (ride : Ride)
    (res : Ride) (db1 : Db)
    (hfind : db.rides.find? (fun r => r.id == rideId) = some ride)
    (hs : ride.status = .SEARCHING)
    (hm : matchRideWithDriver rideId c.driverId now db = (.ok res, db1)) :
    tryCandidates rideId now (c :: cs) db = (some c.driverId, db1) := by
  unfold tryCandidates
  rw [hfind]
  dsimp only
  rw [if_neg (by simp [hs])]
  rw [hm]

/-- C7 (amended): in each matching attempt the candidate list is NOT
filtered by the requested tier (the tier argument has no effect and the
sort is a permutation of the geo result); candidates are ordered by the
stable comparator sort - ascending distance, with the higher rating
preferred when two distances differ by less than 0.5 km, and ties
keeping the geo result's order rather than a driverId tiebreak - and are
then tried in that order, stopping on the first successful match. -/
theorem findAndMatchAttempt_spec :
    (∀ (rideId : String) (t1 t2 : RideType) (now : Nat)
        (l : List NearbyDriver) (db : Db),
      findAndMatchAttempt rideId t1 now l db =
        findAndMatchAttempt rideId t2 now l db) ∧
    (∀ l : List NearbyDriver, (sortDrivers l).Perm l) ∧
    (∀ l : List NearbyDriver,
      (sortDrivers l).Chain' (fun x y => 0 ≤ driverCompare y x)) ∧
    (∀ (rideId : String) (now : Nat) (c : NearbyDriver)
        (cs : List NearbyDriver) (db : Db) (ride res : Ride) (db1 : Db),
      db.rides.find? (fun r => r.id == rideId) = some ride →
      ride.status = .SEARCHING →
      matchRideWithDriver rideId c.driverId now db = (.ok res, db1) →
      tryCandidates rideId now (c :: cs) db = (some c.driverId, db1)) :=
  ⟨fun _ _ _ _ _ _ => rfl, sortDrivers_perm, sortDrivers_chain,
    fun rideId now c cs db ride res db1 hfind hs hm =>
      tryCandidates_first_success rideId now c cs db ride res db1 hfind hs hm⟩

/-- C7 (counterexample): two candidates at the same distance with the
same rating stay in geo order ["D2", "D1"], not driverId-ascending, and
the SUV driver D2 is neither filtered out for the STANDARD request nor
skipped: the attempt matches D2. -/
theorem findAndMatch_no_tier_filter_no_id_tiebreak :
    sortDrivers [c7D2, c7D1] = [c7D2, c7D1] ∧
    c7D2.driverId = "D2" ∧ c7D1.driverId = "D1" ∧
    c7D2.distance = c7D1.distance ∧ c7D2.rating = c7D1.rating ∧
    c7D2.vehicleType = some .SUV ∧ c7Ride.rideType = .STANDARD ∧
    (findAndMatchAttempt "RC7" .STANDARD 3 [c7D2, c7D1] c7Db).1 = some "D2" := by
  refine ⟨?_, rfl, rfl, rfl, rfl, rfl, rfl, ?_⟩
  · norm_num [sortDrivers, insertDriver, driverCompare, c7D1, c7D2]
  · norm_num [findAndMatchAttempt, sortDrivers, insertDriver, driverCompare, c7D1, c7D2]
    rfl

/-- Witness for C7 (amended) on the concrete scenario: the loop stops on
the first candidate, whose match succeeds. -/
theorem findAndMatchAttempt_spec_witness :
    tryCandidates "RC7" 3 (c7D2 :: [c7D1]) c7Db =
      (some c7D2.driverId, (matchRideWithDriver "RC7" "D2" 3 c7Db).2) :=
  findAndMatchAttempt_spec.2.2.2 "RC7" 3 c7D2 [c7D1] c7Db c7Ride
    { c7Ride with driverId := some "D2", status := .MATCHED, matchedAt := some 3 }
    (matchRideWithDriver "RC7" "D2" 3 c7Db).2 rfl rfl rfl


end RideHailing
